import Mathlib

/-!
Shallow embedding of `moarshy/content_creators` (the A2A-style content creation
task manager) and proofs about the behaviour of its task lifecycle operations.

The embedding follows `src/content_creators/task_manager.py` and
`src/content_creators/image_generator.py`.  Parts of the system that live in the
`common` package (the in-memory task store base class, the push notification
sender, the modality check) are not in `src/`; those pieces are modelled from
the specification and are marked `Modelled from the spec:` in their doc
comments.  Python exceptions are modelled with `Except`; stateful methods are
explicit state-passing functions on a `Store` record, and every operation
returns the store reached at the moment a raised exception escapes (Python
mutations persist across raises).
-/

namespace ContentCreators

/-- Task lifecycle states (`common.types.TaskState`). -/
inductive TaskState
  | submitted
  | working
  | completed
  | failed
  | error
deriving DecidableEq, Repr

/-- A message or artifact content part (`TextPart` / `FilePart` with embedded
`FileContent` bytes, mime type and name). -/
inductive Part
  | text (text : String)
  | file (bytes : String) (mimeType : String) (name : String)
deriving DecidableEq, Repr

/-- `common.types.Message`: a role plus ordered content parts. -/
structure Message where
  role : String
  parts : List Part
deriving DecidableEq, Repr

/-- `common.types.TaskStatus`: a state and an optional status message. -/
structure TaskStatus where
  state : TaskState
  message : Option Message
deriving DecidableEq, Repr

/-- `common.types.Artifact`: ordered parts, an index and a title. -/
structure Artifact where
  parts : List Part
  index : Nat
  title : String
deriving DecidableEq, Repr

/-- `common.types.Task`: the stored task record.  `artifacts` is `none` until an
artifact list is first materialized (`update_store` checks `is None`). -/
structure Task where
  id : String
  status : TaskStatus
  artifacts : Option (List Artifact)
deriving DecidableEq, Repr

/-- `common.types.PushNotificationConfig` (the url; the optional token plays no
role in the verified properties). -/
structure PushNotificationConfig where
  url : String
deriving DecidableEq, Repr

/-- `common.types.TaskSendParams`: the request payload. -/
structure TaskSendParams where
  id : String
  message : Message
  acceptedOutputModes : List String
  historyLength : Option Nat
  pushNotification : Option PushNotificationConfig
deriving DecidableEq, Repr

/-- A send / sendSubscribe request envelope. -/
structure SendTaskRequest where
  id : String
  params : TaskSendParams
deriving DecidableEq, Repr

/-- Streaming events (`TaskStatusUpdateEvent` / `TaskArtifactUpdateEvent`). -/
inductive TaskEvent
  | statusUpdate (id : String) (status : TaskStatus) (final : Bool)
  | artifactUpdate (id : String) (artifact : Artifact)
deriving DecidableEq, Repr

/-- JSON-RPC error payloads used by the task manager. -/
inductive RpcError
  | invalidParams (message : String)
  | incompatibleTypes
  | internalError (message : String)
deriving DecidableEq, Repr

/-- `common.types.SendTaskResponse`: carries either a result task or an error. -/
structure SendTaskResponse where
  id : String
  result : Option Task
  error : Option RpcError
deriving DecidableEq, Repr

/-- Python exceptions that can escape the embedded operations.  `str` below
gives the text `str(e)` used when the code interpolates the exception. -/
inductive PyErr
  | valueError (message : String)
  | agentError (message : String)
  | validationError
  | senderError
  | indexError
deriving DecidableEq, Repr

/-- Decidable equality for `Except` results (used to compare run outcomes). -/
instance exceptDecEq {ε α : Type} [DecidableEq ε] [DecidableEq α] :
    DecidableEq (Except ε α) := fun a b =>
  match a, b with
  | Except.error e1, Except.error e2 =>
    if h : e1 = e2 then Decidable.isTrue (by rw [h])
    else Decidable.isFalse (fun hh => h (Except.error.injEq e1 e2 ▸ hh))
  | Except.ok v1, Except.ok v2 =>
    if h : v1 = v2 then Decidable.isTrue (by rw [h])
    else Decidable.isFalse (fun hh => h (Except.ok.injEq v1 v2 ▸ hh))
  | Except.error _, Except.ok _ => Decidable.isFalse (fun hh => Except.noConfusion hh)
  | Except.ok _, Except.error _ => Decidable.isFalse (fun hh => Except.noConfusion hh)

/-- `str(e)` for an embedded exception. -/
def PyErr.str : PyErr → String
  | .valueError m => m
  | .agentError m => m
  | .validationError => "validation error for Imagedata: field required"
  | .senderError => "push notification send failed"
  | .indexError => "list index out of range"

/-- JSON-like values (`content_data` is `json.loads` output). -/
inductive Json
  | null
  | bool (b : Bool)
  | num (n : Int)
  | str (s : String)
  | arr (elems : List Json)
  | obj (fields : List (String × Json))

/-- Serialization of a JSON value.  Stands for `json.dumps(content_data,
indent=2)`; the claims only require the artifact text to be the serialization
of the content record, not Python's exact whitespace layout. -/
def Json.dumps : Json → String
  | .null => "null"
  | .bool true => "true"
  | .bool false => "false"
  | .num n => toString n
  | .str s => "\"" ++ s ++ "\""
  | .arr es => "[" ++ String.intercalate ", " (dumpsList es) ++ "]"
  | .obj fs => "\x7b" ++ String.intercalate ", " (dumpsFields fs) ++ "\x7d"
where
  dumpsList : List Json → List String
    | [] => []
    | j :: rest => Json.dumps j :: dumpsList rest
  dumpsFields : List (String × Json) → List String
    | [] => []
    | (k, j) :: rest => ("\"" ++ k ++ "\": " ++ Json.dumps j) :: dumpsFields rest

/-- Python `d.get(key, default)` on a JSON object; a non-object yields the
default (the embedded flows only apply this to object-shaped records). -/
def Json.getD (j : Json) (key : String) (d : Json) : Json :=
  match j with
  | .obj fs => (fieldLookup fs).getD d
  | _ => d
where
  fieldLookup : List (String × Json) → Option Json
    | [] => none
    | (k, v) :: rest => if k = key then some v else fieldLookup rest

/-- Association list lookup (Python `dict` read). -/
def lookupA {α : Type} : List (String × α) → String → Option α
  | [], _ => none
  | (k, v) :: rest, key => if k = key then some v else lookupA rest key

/-- Association list write (Python `dict` assignment). -/
def setA {α : Type} : List (String × α) → String → α → List (String × α)
  | [], key, v => [(key, v)]
  | (k, w) :: rest, key, v =>
    if k = key then (key, v) :: rest else (k, w) :: setA rest key v

/-- The mutable state of a `ContentTaskManager` instance: the task map and the
per-task message history (`self.tasks`, `self.task_messages`), the registered
push configs, the per-task SSE event queues (what `enqueue_events_for_sse`
appended, in order), and a count of `agent.invoke` calls (to express "no
retry"). -/
structure Store where
  tasks : List (String × Task)
  taskMessages : List (String × List Message)
  pushConfigs : List (String × PushNotificationConfig)
  events : List (String × List TaskEvent)
  agentCalls : Nat
deriving DecidableEq, Repr

def Store.empty : Store := ⟨[], [], [], [], 0⟩

def Store.getTask (st : Store) (tid : String) : Option Task :=
  lookupA st.tasks tid

def Store.setTask (st : Store) (tid : String) (t : Task) : Store :=
  ⟨setA st.tasks tid t, st.taskMessages, st.pushConfigs, st.events, st.agentCalls⟩

def Store.getMessages (st : Store) (tid : String) : List Message :=
  (lookupA st.taskMessages tid).getD []

/-- `self.task_messages[task_id].append(m)` (a `defaultdict(list)`). -/
def Store.appendMessage (st : Store) (tid : String) (m : Message) : Store :=
  ⟨st.tasks, setA st.taskMessages tid (st.getMessages tid ++ [m]),
   st.pushConfigs, st.events, st.agentCalls⟩

def Store.getPush (st : Store) (tid : String) : Option PushNotificationConfig :=
  lookupA st.pushConfigs tid

def Store.setPush (st : Store) (tid : String) (c : PushNotificationConfig) : Store :=
  ⟨st.tasks, st.taskMessages, setA st.pushConfigs tid c, st.events, st.agentCalls⟩

/-- The sequence of events enqueued so far for a task id. -/
def Store.eventsFor (st : Store) (tid : String) : List TaskEvent :=
  (lookupA st.events tid).getD []

/-- Modelled from the spec: `InMemoryTaskManager.enqueue_events_for_sse` is not
under `src/`.  Spec 4.4 `publish(task_id, event)` appends the event to the
task's queues; the store records the published sequence per task id. -/
def Store.enqueue (st : Store) (tid : String) (e : TaskEvent) : Store :=
  ⟨st.tasks, st.taskMessages, st.pushConfigs,
   setA st.events tid (st.eventsFor tid ++ [e]), st.agentCalls⟩

def Store.tickAgent (st : Store) : Store :=
  ⟨st.tasks, st.taskMessages, st.pushConfigs, st.events, st.agentCalls + 1⟩

/-- `content_creators.image_generator.Imagedata` (a pydantic model):
`id`, `bytestring` and `mime_type` are declared required with no default;
`error` defaults to `None`. -/
structure Imagedata where
  id : String
  bytestring : List Nat
  mime_type : String
  error : Option String
deriving DecidableEq, Repr

/-- Python truthiness of the `error` field: `not image_data.error` holds when
`error` is `None` or the empty string. -/
def Imagedata.errorFree (img : Imagedata) : Bool :=
  match img.error with
  | none => true
  | some e => e = ""

/-- `image_data and not image_data.error` (an `Imagedata` instance itself is
always truthy). -/
def imageOk : Option Imagedata → Bool
  | some img => img.errorFree
  | none => false

/-- `image_data and image_data.error`. -/
def imageFailed : Option Imagedata → Bool
  | some img => !img.errorFree
  | none => false

/-- The behaviour of the external collaborators injected into the manager: the
outcome of `agent.invoke` (a raised exception's text, or the
`(content_data, image_data)` pair), whether the push-notification sender's
`send_push_notification` call raises when actually invoked, whether
`notification_sender_auth` was provided at construction, and the result of
`verify_push_notification_url`.  Spec 1 treats the agent as a black box behind
`invoke(query)`. -/
structure Behavior where
  agentResult : Except String (Json × Option Imagedata)
  senderRaises : Bool
  hasAuth : Bool
  verifyOk : Bool

/-- The base64 alphabet. -/
def base64Char (n : Nat) : Char :=
  "ABCDEFGHIJKLMNOPQRSTUVWXYZabcdefghijklmnopqrstuvwxyz0123456789+/".toList.getD n '='

/-- `base64.b64encode(data).decode('utf-8')` over a byte list. -/
def b64encode : List Nat → String
  | [] => ""
  | [a] =>
    let x := (a % 256) * 65536
    String.mk [base64Char (x / 262144 % 64), base64Char (x / 4096 % 64)] ++ "=="
  | [a, b] =>
    let x := (a % 256) * 65536 + (b % 256) * 256
    String.mk [base64Char (x / 262144 % 64), base64Char (x / 4096 % 64),
               base64Char (x / 64 % 64)] ++ "="
  | a :: b :: c :: rest =>
    let x := (a % 256) * 65536 + (b % 256) * 256 + (c % 256)
    String.mk [base64Char (x / 262144 % 64), base64Char (x / 4096 % 64),
               base64Char (x / 64 % 64), base64Char (x % 64)] ++ b64encode rest

/-- The text artifact built at index 0 (`task_manager.py` lines 167-174 and
312-319): one text part holding the serialized content record. -/
def textArtifactOf (content : Json) : Artifact :=
  Artifact.mk [Part.text (Json.dumps content)] 0 "Content Package"

/-- The image artifact built at index 1 (`task_manager.py` lines 176-191 and
327-342): one file part with the base64-encoded bytes, the image's declared
mime type and the fixed file name. -/
def imageArtifactOf (img : Imagedata) : Artifact :=
  Artifact.mk [Part.file (b64encode img.bytestring) img.mime_type "generated_image.png"]
    1 "Generated Image"

/-- The artifact list assembled by `_process_agent_response` (lines 164-191):
always the text artifact; additionally the image artifact when
`image_data and not image_data.error`. -/
def pyArtifacts (content : Json) (image : Option Imagedata) : List Artifact :=
  match image with
  | some img =>
    if img.errorFree then [textArtifactOf content, imageArtifactOf img]
    else [textArtifactOf content]
  | none => [textArtifactOf content]

/-- The platform value read from one content section:
`content_data.get(key, \x7b\x7d).get('platform', '')` (lines 194-199).  The crew's
output schema (`crew.py`, `CrossPlatformTextPackage`) declares `platform: str`,
so the embedding reads string values; a non-string value (which would make
CPython raise in `set`/`join`) is out of scope and reads as `''`. -/
def platformOf (content : Json) (key : String) : String :=
  match (content.getD key (Json.obj [])).getD "platform" (Json.str "") with
  | .str s => s
  | _ => ""

/-- The four platform lookups, in source order (lines 194-199): the content
record's platform-bearing sections are exactly `x_content`, `facebook_content`,
`instagram_content` and `linkedin_content` (`crew.py`,
`CrossPlatformTextPackage`). -/
def rawPlatforms (content : Json) : List String :=
  [platformOf content "x_content", platformOf content "facebook_content",
   platformOf content "instagram_content", platformOf content "linkedin_content"]

/-- `platforms = list(set([...])); platforms = [p for p in platforms if p]`
(lines 194-200).  CPython's `set` iteration order is unspecified;
`List.dedup` fixes one duplicate-free order, and the verified properties
(membership and duplicate-freeness) hold for every order. -/
def platformsOf (content : Json) : List String :=
  (rawPlatforms content).dedup.filter (fun p => p ≠ "")

/-- The one-line summary (lines 202-206; the block at lines 359-363 of the
streaming path is textually identical in the source). -/
def buildSummary (content : Json) (image : Option Imagedata) : String :=
  let base := "Created content package with posts for " ++
    String.intercalate ", " (platformsOf content) ++ "."
  match image with
  | some img =>
    if img.errorFree then base ++ " Generated matching image based on content theme."
    else base ++ " Image generation failed: " ++ img.error.getD ""
  | none => base

/-- `ContentTaskManager.SUPPORTED_CONTENT_TYPES`. -/
def SUPPORTED_CONTENT_TYPES : List String :=
  ["text", "text/plain", "image/png", "application/json"]

/-- Modelled from the spec: `common.server.utils.are_modalities_compatible` is
not under `src/`.  Spec 4.2: "Computes intersection of the request's accepted
output modes and the system's supported set ...; empty intersection →
IncompatibleTypes error." -/
def are_modalities_compatible (accepted supported : List String) : Bool :=
  accepted.any (fun m => supported.contains m)

/-- `ContentTaskManager._validate_request` (lines 62-91): modality check, then
the push-notification url must be non-empty when a config is attached. -/
def validate_request (req : SendTaskRequest) : Option RpcError :=
  if are_modalities_compatible req.params.acceptedOutputModes SUPPORTED_CONTENT_TYPES = false
  then some RpcError.incompatibleTypes
  else
    match req.params.pushNotification with
    | some cfg =>
      if cfg.url = "" then some (RpcError.invalidParams "Push notification URL is missing")
      else none
    | none => none

/-- Modelled from the spec: `InMemoryTaskManager.upsert_task` is not under
`src/`.  Spec 4.1: "`upsert(params) -> Task`: creates the task if the id is
absent (initial state SUBMITTED, empty artifacts), otherwise returns the
existing record unchanged.  Idempotent." -/
def upsert_task (st : Store) (params : TaskSendParams) : Task × Store :=
  match st.getTask params.id with
  | some t => (t, st)
  | none =>
    let t := Task.mk params.id (TaskStatus.mk TaskState.submitted none) none
    (t, st.setTask params.id t)

/-- Modelled from the spec: the push-config store
(`InMemoryTaskManager.has_push_notification_info`) is not under `src/`.
Spec 3/4.3: one config per task id, kept in the store. -/
def has_push_notification_info (st : Store) (tid : String) : Bool :=
  (st.getPush tid).isSome

/-- `ContentTaskManager.set_push_notification_info` (lines 441-460): returns
false when no sender auth is configured; verifies the url by challenge and
stores the config only on success. -/
def set_push_notification_info (b : Behavior) (st : Store) (task_id : String)
    (cfg : PushNotificationConfig) : Bool × Store :=
  if b.hasAuth = false then (false, st)
  else if b.verifyOk = false then (false, st)
  else (true, st.setPush task_id cfg)

/-- `ContentTaskManager.send_task_notification` (lines 425-439): returns early
without sender auth or without a registered config; otherwise calls the
sender's `send_push_notification`.  That call lives in the common library (not
under `src/`); spec 4.3 requires delivery failures to be swallowed inside it
("never fails the enclosing lifecycle operation"), and `senderRaises`
additionally models a sender whose call raises — `send_task_notification`
itself has no handler around the call. -/
def send_task_notification (b : Behavior) (st : Store) (task : Task) :
    Except PyErr Unit × Store :=
  if b.hasAuth = false then (Except.ok (), st)
  else if has_push_notification_info st task.id = false then (Except.ok (), st)
  else if b.senderRaises = true then (Except.error PyErr.senderError, st)
  else (Except.ok (), st)

/-- `ContentTaskManager._get_user_query` (lines 418-423): reads
`message.parts[0]` (IndexError on an empty list) and raises ValueError unless
it is a `TextPart`. -/
def get_user_query (params : TaskSendParams) : Except PyErr String :=
  match params.message.parts with
  | [] => Except.error PyErr.indexError
  | Part.text t :: _ => Except.ok t
  | Part.file _ _ _ :: _ => Except.error (PyErr.valueError "Only text parts are supported")

/-- `artifacts` truthiness at line 479: `if artifacts:` skips both `None` and
the empty list. -/
def artifactsTruthy : Option (List Artifact) → Bool
  | some (_ :: _) => true
  | _ => false

/-- `ContentTaskManager.update_store` (lines 462-484): raises ValueError when
the id is unknown; applies the status when one is given (appending its message
to `task_messages`); extends the task's artifact list (materializing it from
`None`) when a non-empty artifact list is given; returns the updated task. -/
def update_store (st : Store) (task_id : String) (status : Option TaskStatus)
    (artifacts : Option (List Artifact)) : Except PyErr Task × Store :=
  match st.getTask task_id with
  | none => (Except.error (PyErr.valueError ("Task " ++ task_id ++ " not found")), st)
  | some task =>
    let step :=
      match status with
      | some s =>
        let t := Task.mk task.id s task.artifacts
        let st1 := st.setTask task_id t
        match s.message with
        | some m => (t, st1.appendMessage task_id m)
        | none => (t, st1)
      | none => (task, st)
    if artifactsTruthy artifacts = true then
      let t2 := Task.mk step.1.id step.1.status
        (some (step.1.artifacts.getD [] ++ artifacts.getD []))
      (Except.ok t2, step.2.setTask task_id t2)
    else
      (Except.ok step.1, step.2)

/-- `ContentTaskManager._process_agent_response` (lines 153-223): builds the
artifacts and summary, marks the task COMPLETED with the summary message,
appends the artifacts, notifies (line 220-221, inside the caller's `try`), and
returns the task.  `append_task_history` is modelled from the spec (4.1
`history`): it trims the returned record's history to `historyLength`; the
embedded `Task` carries no history field, so the trim is the identity on it and
the store is unchanged by it. -/
def process_agent_response (b : Behavior) (st : Store) (req : SendTaskRequest)
    (content_data : Json) (image_data : Option Imagedata) :
    Except PyErr SendTaskResponse × Store :=
  let task_status := TaskStatus.mk TaskState.completed
    (some (Message.mk "agent" [Part.text (buildSummary content_data image_data)]))
  match update_store st req.params.id (some task_status)
      (some (pyArtifacts content_data image_data)) with
  | (Except.error e, st1) => (Except.error e, st1)
  | (Except.ok task, st1) =>
    match send_task_notification b st1 task with
    | (Except.error e, st2) => (Except.error e, st2)
    | (Except.ok _, st2) =>
      (Except.ok (SendTaskResponse.mk req.id (some task) none), st2)

/-- `ContentTaskManager.on_send_task` (lines 93-151): validate; register a push
config when one is attached (rejecting with InvalidParams when verification
fails); upsert the task and set it WORKING; notify; extract the query (outside
the `try`); then invoke the agent inside a `try` whose handler marks the task
FAILED and answers InternalError.  Exceptions escaping outside the `try`
(notification at line 119, `_get_user_query` at line 122, the handler's own
calls) propagate as `Except.error`, with all mutations up to that point kept. -/
def on_send_task (b : Behavior) (st : Store) (req : SendTaskRequest) :
    Except PyErr SendTaskResponse × Store :=
  match validate_request req with
  | some e => (Except.ok (SendTaskResponse.mk req.id none (some e)), st)
  | none =>
    let pushStep : Option SendTaskResponse × Store :=
      match req.params.pushNotification with
      | some cfg =>
        if b.hasAuth = true then
          match set_push_notification_info b st req.params.id cfg with
          | (false, st1) =>
            (some (SendTaskResponse.mk req.id none
              (some (RpcError.invalidParams "Push notification URL is invalid"))), st1)
          | (true, st1) => (none, st1)
        else (none, st)
      | none => (none, st)
    match pushStep with
    | (some resp, st1) => (Except.ok resp, st1)
    | (none, st1) =>
      let st2 := (upsert_task st1 req.params).2
      match update_store st2 req.params.id (some (TaskStatus.mk TaskState.working none)) none with
      | (Except.error e, st3) => (Except.error e, st3)
      | (Except.ok task, st3) =>
        match send_task_notification b st3 task with
        | (Except.error e, st4) => (Except.error e, st4)
        | (Except.ok _, st4) =>
          match get_user_query req.params with
          | Except.error e => (Except.error e, st4)
          | Except.ok _query =>
            let st5 := st4.tickAgent
            let body : Except PyErr SendTaskResponse × Store :=
              match b.agentResult with
              | Except.error emsg => (Except.error (PyErr.agentError emsg), st5)
              | Except.ok (content_data, image_data) =>
                process_agent_response b st5 req content_data image_data
            match body with
            | (Except.ok resp, st6) => (Except.ok resp, st6)
            | (Except.error e, st6) =>
              let failStatus := TaskStatus.mk TaskState.failed
                (some (Message.mk "agent"
                  [Part.text ("Error creating content: " ++ PyErr.str e)]))
              match update_store st6 req.params.id (some failStatus) none with
              | (Except.error e2, st7) => (Except.error e2, st7)
              | (Except.ok task2, st7) =>
                match send_task_notification b st7 task2 with
                | (Except.error e3, st8) => (Except.error e3, st8)
                | (Except.ok _, st8) =>
                  (Except.ok (SendTaskResponse.mk req.id none
                    (some (RpcError.internalError ("Error invoking agent: " ++ PyErr.str e)))),
                   st8)

/-- What `on_send_task_subscribe` hands back to its caller. -/
inductive SubscribeResult
  | errorResponse (e : RpcError)
  | stream
deriving DecidableEq, Repr

/-- `ContentTaskManager.on_send_task_subscribe` (lines 225-266), up to the
point the streaming unit of work is scheduled: validate; upsert the task (line
234, before the push-config check); register the push config (rejecting with
InvalidParams when verification fails); then open the SSE consumer and spawn
`_run_streaming_content_creation`.  `setup_sse_consumer` — modelled from the
spec (4.4 `open`) — just returns a subscriber handle, with no store effect the
claims observe; `.stream` means the producer was scheduled (the claims run it
explicitly via `run_streaming_content_creation`).  With the modelled
components nothing in this body raises, so the surrounding `try` (lines
229-266) is not exercised. -/
def on_send_task_subscribe (b : Behavior) (st : Store) (req : SendTaskRequest) :
    SubscribeResult × Store :=
  match validate_request req with
  | some e => (SubscribeResult.errorResponse e, st)
  | none =>
    let st1 := (upsert_task st req.params).2
    match req.params.pushNotification with
    | some cfg =>
      if b.hasAuth = true then
        match set_push_notification_info b st1 req.params.id cfg with
        | (false, st2) =>
          (SubscribeResult.errorResponse
            (RpcError.invalidParams "Push notification URL is invalid"), st2)
        | (true, st2) => (SubscribeResult.stream, st2)
      else (SubscribeResult.stream, st1)
    | none => (SubscribeResult.stream, st1)

/-- The first WORKING status message of the streaming path (line 275-278). -/
def startingMessage : Message :=
  Message.mk "agent" [Part.text "Starting content creation process..."]

/-- The second WORKING status message of the streaming path (line 291-294). -/
def progressMessage : Message :=
  Message.mk "agent" [Part.text "Creating content package and generating image..."]

/-- `ContentTaskManager._run_streaming_content_creation` (lines 268-395):
extracts the query (line 271, before the `try`); inside the `try`, publishes
two non-final WORKING status events, invokes the agent, stores and publishes
the text artifact, then the image artifact when present and error-free, and
finishes with a final COMPLETED status event carrying the summary; the `except`
handler (lines 378-395) marks the task ERROR and publishes a final status
event.  Exceptions escaping the handler itself propagate, with all mutations
kept. -/
def run_streaming_content_creation (b : Behavior) (st : Store) (req : SendTaskRequest) :
    Except PyErr Unit × Store :=
  let tid := req.params.id
  match get_user_query req.params with
  | Except.error e => (Except.error e, st)
  | Except.ok _query =>
    let body : Except PyErr Unit × Store :=
      match update_store st tid (some (TaskStatus.mk TaskState.working (some startingMessage))) none with
      | (Except.error e, s1) => (Except.error e, s1)
      | (Except.ok task1, s1) =>
        match send_task_notification b s1 task1 with
        | (Except.error e, s2) => (Except.error e, s2)
        | (Except.ok _, s2) =>
          let s3 := s2.enqueue tid (TaskEvent.statusUpdate tid
            (TaskStatus.mk TaskState.working (some startingMessage)) false)
          match update_store s3 tid (some (TaskStatus.mk TaskState.working (some progressMessage))) none with
          | (Except.error e, s4) => (Except.error e, s4)
          | (Except.ok task2, s4) =>
            match send_task_notification b s4 task2 with
            | (Except.error e, s5) => (Except.error e, s5)
            | (Except.ok _, s5) =>
              let s6 := s5.enqueue tid (TaskEvent.statusUpdate tid
                (TaskStatus.mk TaskState.working (some progressMessage)) false)
              let s7 := s6.tickAgent
              match b.agentResult with
              | Except.error emsg => (Except.error (PyErr.agentError emsg), s7)
              | Except.ok (content_data, image_data) =>
                match update_store s7 tid none (some [textArtifactOf content_data]) with
                | (Except.error e, s8) => (Except.error e, s8)
                | (Except.ok _, s8) =>
                  let s9 := s8.enqueue tid
                    (TaskEvent.artifactUpdate tid (textArtifactOf content_data))
                  let imgStep : Except PyErr Unit × Store :=
                    match image_data with
                    | some img =>
                      if img.errorFree then
                        match update_store s9 tid none (some [imageArtifactOf img]) with
                        | (Except.error e, sa) => (Except.error e, sa)
                        | (Except.ok _, sa) =>
                          (Except.ok (), sa.enqueue tid
                            (TaskEvent.artifactUpdate tid (imageArtifactOf img)))
                      else (Except.ok (), s9)
                    | none => (Except.ok (), s9)
                  match imgStep with
                  | (Except.error e, sb) => (Except.error e, sb)
                  | (Except.ok _, sb) =>
                    let finalStatus := TaskStatus.mk TaskState.completed
                      (some (Message.mk "agent"
                        [Part.text (buildSummary content_data image_data)]))
                    match update_store sb tid (some finalStatus) none with
                    | (Except.error e, sc) => (Except.error e, sc)
                    | (Except.ok task3, sc) =>
                      match send_task_notification b sc task3 with
                      | (Except.error e, sd) => (Except.error e, sd)
                      | (Except.ok _, sd) =>
                        (Except.ok (), sd.enqueue tid
                          (TaskEvent.statusUpdate tid finalStatus true))
    match body with
    | (Except.ok _, se) => (Except.ok (), se)
    | (Except.error e, se) =>
      let errStatus := TaskStatus.mk TaskState.error
        (some (Message.mk "agent" [Part.text ("Error creating content: " ++ PyErr.str e)]))
      match update_store se tid (some errStatus) none with
      | (Except.error e2, sf) => (Except.error e2, sf)
      | (Except.ok task4, sf) =>
        match send_task_notification b sf task4 with
        | (Except.error e3, sg) => (Except.error e3, sg)
        | (Except.ok _, sg) =>
          (Except.ok (), sg.enqueue tid (TaskEvent.statusUpdate tid errStatus true))

/-- One part of the model response in `generate_image`: `inline_data` is either
absent/`None` or carries `(data, mime_type)`. -/
structure ResponsePart where
  inline_data : Option (List Nat × String)
deriving DecidableEq, Repr

/-- The environment `generate_image` runs against: the `GOOGLE_API_KEY` value,
the outcome of `client.models.generate_content` (a raised exception's text, or
the parts of `response.candidates[0].content`; an empty-candidates IndexError
folds into the raised case), and the `uuid4().hex` drawn for the image. -/
structure GenAIEnv where
  apiKey : Option String
  response : Except String (List ResponsePart)
  imageId : String

/-- Pydantic construction of `Imagedata`: `id`, `bytestring` and `mime_type`
are required fields with no default, `error` defaults to `None`; omitting a
required field raises a ValidationError instead of producing a value. -/
def Imagedata.construct (id : Option String) (bytestring : Option (List Nat))
    (mime_type : Option String) (error : Option String) : Except PyErr Imagedata :=
  match id, bytestring, mime_type with
  | some i, some bs, some mt => Except.ok (Imagedata.mk i bs mt error)
  | _, _, _ => Except.error PyErr.validationError

/-- `if not api_key:` — `os.getenv` returns `None` when unset, and the empty
string is also falsy. -/
def apiKeyMissing : Option String → Bool
  | none => true
  | some k => k = ""

/-- The `for part in response.candidates[0].content.parts:` loop (lines 52-58):
the first part whose `inline_data` is present. -/
def firstInline : List ResponsePart → Option (List Nat × String)
  | [] => none
  | p :: rest =>
    match p.inline_data with
    | some d => some d
    | none => firstInline rest

/-- `content_creators.image_generator.generate_image` (lines 20-64).  The empty
prompt check is outside the `try`; every other failure path constructs
`Imagedata` with only `error` set inside the `try`, and the `except` handler
(lines 62-64) does the same, so the pydantic ValidationError re-raised there
propagates out. -/
def generate_image (env : GenAIEnv) (prompt : String) : Except PyErr Imagedata :=
  if prompt = "" then
    Imagedata.construct none none none (some "Prompt cannot be empty")
  else
    let body : Except PyErr Imagedata :=
      if apiKeyMissing env.apiKey = true then
        Imagedata.construct none none none
          (some "Google API key not found. Please set the GOOGLE_API_KEY environment variable.")
      else
        match env.response with
        | Except.error emsg => Except.error (PyErr.valueError emsg)
        | Except.ok parts =>
          match firstInline parts with
          | some d => Imagedata.construct (some env.imageId) (some d.1) (some d.2) none
          | none =>
            Imagedata.construct none none none (some "No image was found in the response")
    match body with
    | Except.ok img => Except.ok img
    | Except.error e =>
      Imagedata.construct none none none (some ("Error generating image: " ++ PyErr.str e))

/-! Concrete fixtures used to instantiate the theorems. -/

/-- A schema-shaped content record with two platform sections. -/
def contentA : Json :=
  Json.obj [("x_content", Json.obj [("platform", Json.str "X")]),
            ("linkedin_content", Json.obj [("platform", Json.str "LinkedIn")])]

/-- An error-free image result. -/
def imageA : Imagedata := Imagedata.mk "img1" [1, 2, 3] "image/png" none

/-- A message whose first part is a text part. -/
def msgT : Message := Message.mk "user" [Part.text "hi"]

/-- A message whose first part is a file part. -/
def msgF : Message := Message.mk "user" [Part.file "eA==" "text/plain" "f.txt"]

/-- A request for task `tid` with compatible output modes. -/
def reqOf (rid tid : String) (m : Message) (push : Option PushNotificationConfig) :
    SendTaskRequest :=
  SendTaskRequest.mk rid (TaskSendParams.mk tid m ["text"] none push)

/-- A push-notification config with a non-empty url. -/
def pushCfg : PushNotificationConfig := PushNotificationConfig.mk "https://cb.example"

/-- Behavior: agent succeeds with `contentA` and `imageA`; no sender auth. -/
def bOkA : Behavior := Behavior.mk (Except.ok (contentA, some imageA)) false false false

/-- Behavior: agent raises; no sender auth. -/
def bErrA : Behavior := Behavior.mk (Except.error "boom") false false false

/-- Behavior: agent succeeds, sender auth present, url verification succeeds,
delivery succeeds. -/
def bPushOk : Behavior := Behavior.mk (Except.ok (contentA, none)) false true true

/-- Behavior: like `bPushOk` but the sender's delivery call raises. -/
def bPushRaise : Behavior := Behavior.mk (Except.ok (contentA, none)) true true true

/-- Behavior: sender auth present but url verification fails. -/
def bNoVerify : Behavior := Behavior.mk (Except.ok (contentA, none)) false true false

/-- A store holding one task `"t1"` in a given state. -/
def storeWith (s : TaskState) : Store :=
  Store.mk [("t1", Task.mk "t1" (TaskStatus.mk s none) none)] [] [] [] 0

/-- A successful image-generation environment. -/
def envOkA : GenAIEnv :=
  GenAIEnv.mk (some "k") (Except.ok [ResponsePart.mk (some ([5, 6], "image/png"))]) "id1"

/-- True of final status events only. -/
def isFinalEvent : TaskEvent → Bool
  | TaskEvent.statusUpdate _ _ f => f
  | TaskEvent.artifactUpdate _ _ => false

/-! Helper lemmas about the store primitives. -/

@[simp]
theorem lookupA_setA_self {α : Type} (l : List (String × α)) (k : String) (v : α) :
    lookupA (setA l k v) k = some v := by
  induction l with
  | nil => simp [setA, lookupA]
  | cons hd tl ih =>
    obtain ⟨k0, v0⟩ := hd
    by_cases h : k0 = k
    · simp [setA, h, lookupA]
    · simp [setA, h, lookupA, ih]

@[simp]
theorem getTask_setTask (st : Store) (tid : String) (t : Task) :
    (st.setTask tid t).getTask tid = some t :=
  lookupA_setA_self st.tasks tid t

@[simp]
theorem getTask_appendMessage (st : Store) (tid tid' : String) (m : Message) :
    (st.appendMessage tid m).getTask tid' = st.getTask tid' := rfl

@[simp]
theorem getTask_enqueue (st : Store) (tid tid' : String) (e : TaskEvent) :
    (st.enqueue tid e).getTask tid' = st.getTask tid' := rfl

@[simp]
theorem getTask_tick (st : Store) (tid : String) :
    st.tickAgent.getTask tid = st.getTask tid := rfl

@[simp]
theorem eventsFor_setTask (st : Store) (tid tid' : String) (t : Task) :
    (st.setTask tid t).eventsFor tid' = st.eventsFor tid' := rfl

@[simp]
theorem eventsFor_appendMessage (st : Store) (tid tid' : String) (m : Message) :
    (st.appendMessage tid m).eventsFor tid' = st.eventsFor tid' := rfl

@[simp]
theorem eventsFor_tick (st : Store) (tid : String) :
    st.tickAgent.eventsFor tid = st.eventsFor tid := rfl

@[simp]
theorem eventsFor_enqueue_self (st : Store) (tid : String) (e : TaskEvent) :
    (st.enqueue tid e).eventsFor tid = st.eventsFor tid ++ [e] := by
  simp [Store.enqueue, Store.eventsFor]

@[simp]
theorem pushConfigs_setTask (st : Store) (tid : String) (t : Task) :
    (st.setTask tid t).pushConfigs = st.pushConfigs := rfl

@[simp]
theorem pushConfigs_appendMessage (st : Store) (tid : String) (m : Message) :
    (st.appendMessage tid m).pushConfigs = st.pushConfigs := rfl

@[simp]
theorem pushConfigs_enqueue (st : Store) (tid : String) (e : TaskEvent) :
    (st.enqueue tid e).pushConfigs = st.pushConfigs := rfl

@[simp]
theorem pushConfigs_tick (st : Store) :
    st.tickAgent.pushConfigs = st.pushConfigs := rfl

@[simp]
theorem agentCalls_setTask (st : Store) (tid : String) (t : Task) :
    (st.setTask tid t).agentCalls = st.agentCalls := rfl

@[simp]
theorem agentCalls_appendMessage (st : Store) (tid : String) (m : Message) :
    (st.appendMessage tid m).agentCalls = st.agentCalls := rfl

@[simp]
theorem agentCalls_enqueue (st : Store) (tid : String) (e : TaskEvent) :
    (st.enqueue tid e).agentCalls = st.agentCalls := rfl

@[simp]
theorem agentCalls_tick (st : Store) :
    st.tickAgent.agentCalls = st.agentCalls + 1 := rfl

/-! Helper lemmas characterizing `update_store` and the notification calls. -/

theorem update_store_not_found (st : Store) (tid : String) (status : Option TaskStatus)
    (arts : Option (List Artifact)) (h : st.getTask tid = none) :
    update_store st tid status arts =
      (Except.error (PyErr.valueError ("Task " ++ tid ++ " not found")), st) := by
  unfold update_store
  rw [h]

theorem update_store_status_msg (st : Store) (tid : String) (t : Task) (s : TaskStatus)
    (m : Message) (h : st.getTask tid = some t) (hm : s.message = some m) :
    update_store st tid (some s) none =
      (Except.ok (Task.mk t.id s t.artifacts),
       (st.setTask tid (Task.mk t.id s t.artifacts)).appendMessage tid m) := by
  unfold update_store
  rw [h]
  simp [hm, artifactsTruthy]

theorem update_store_status_nomsg (st : Store) (tid : String) (t : Task) (s : TaskStatus)
    (h : st.getTask tid = some t) (hm : s.message = none) :
    update_store st tid (some s) none =
      (Except.ok (Task.mk t.id s t.artifacts),
       st.setTask tid (Task.mk t.id s t.artifacts)) := by
  unfold update_store
  rw [h]
  simp [hm, artifactsTruthy]

theorem update_store_arts_cons (st : Store) (tid : String) (t : Task)
    (a : Artifact) (as_ : List Artifact) (h : st.getTask tid = some t) :
    update_store st tid none (some (a :: as_)) =
      (Except.ok (Task.mk t.id t.status (some (t.artifacts.getD [] ++ (a :: as_)))),
       st.setTask tid (Task.mk t.id t.status (some (t.artifacts.getD [] ++ (a :: as_))))) := by
  unfold update_store
  rw [h]
  simp [artifactsTruthy]

theorem update_store_status_arts (st : Store) (tid : String) (t : Task) (s : TaskStatus)
    (m : Message) (a : Artifact) (as_ : List Artifact)
    (h : st.getTask tid = some t) (hm : s.message = some m) :
    update_store st tid (some s) (some (a :: as_)) =
      (Except.ok (Task.mk t.id s (some (t.artifacts.getD [] ++ (a :: as_)))),
       ((st.setTask tid (Task.mk t.id s t.artifacts)).appendMessage tid m).setTask tid
         (Task.mk t.id s (some (t.artifacts.getD [] ++ (a :: as_))))) := by
  unfold update_store
  rw [h]
  simp [hm, artifactsTruthy]

theorem send_ok_of_not_raising (a : Except String (Json × Option Imagedata))
    (au vo : Bool) (st : Store) (task : Task) :
    send_task_notification (Behavior.mk a false au vo) st task = (Except.ok (), st) := by
  unfold send_task_notification
  split_ifs <;> simp_all

theorem send_ok_of_no_config (b : Behavior) (st : Store) (task : Task)
    (h : st.pushConfigs = []) :
    send_task_notification b st task = (Except.ok (), st) := by
  unfold send_task_notification
  have hinfo : has_push_notification_info st task.id = false := by
    simp [has_push_notification_info, Store.getPush, h, lookupA]
  split_ifs <;> simp_all

theorem getTask_upsert_self (st : Store) (p : TaskSendParams) :
    (upsert_task st p).2.getTask p.id = some (upsert_task st p).1 := by
  unfold upsert_task
  cases h : st.getTask p.id with
  | some t => simp [h]
  | none => simp [h]

/-! Characterizations of the lifecycle flows (used by the claim theorems). -/

theorem run_streaming_ok_spec (content : Json) (image : Option Imagedata) (au vo : Bool)
    (st : Store) (req : SendTaskRequest) (t : Task) (q : String) (rest : List Part)
    (hT : st.getTask req.params.id = some t)
    (hq : req.params.message.parts = Part.text q :: rest) :
    (run_streaming_content_creation (Behavior.mk (Except.ok (content, image)) false au vo) st req).1
      = Except.ok () ∧
    (run_streaming_content_creation (Behavior.mk (Except.ok (content, image)) false au vo) st req).2.eventsFor
        req.params.id
      = st.eventsFor req.params.id ++
        ([TaskEvent.statusUpdate req.params.id
            (TaskStatus.mk TaskState.working (some startingMessage)) false,
          TaskEvent.statusUpdate req.params.id
            (TaskStatus.mk TaskState.working (some progressMessage)) false,
          TaskEvent.artifactUpdate req.params.id (textArtifactOf content)] ++
         (match image with
          | some img =>
            if img.errorFree then [TaskEvent.artifactUpdate req.params.id (imageArtifactOf img)]
            else []
          | none => []) ++
         [TaskEvent.statusUpdate req.params.id
            (TaskStatus.mk TaskState.completed
              (some (Message.mk "agent" [Part.text (buildSummary content image)]))) true]) ∧
    (run_streaming_content_creation (Behavior.mk (Except.ok (content, image)) false au vo) st req).2.getTask
        req.params.id
      = some (Task.mk t.id
        (TaskStatus.mk TaskState.completed
          (some (Message.mk "agent" [Part.text (buildSummary content image)])))
        (some (t.artifacts.getD [] ++ [textArtifactOf content] ++
          (match image with
           | some img => if img.errorFree then [imageArtifactOf img] else []
           | none => [])))) := by
  rcases image with _ | img
  · refine ⟨?_, ?_, ?_⟩ <;>
      simp [run_streaming_content_creation, get_user_query, hq, update_store, hT,
        artifactsTruthy, send_ok_of_not_raising]
  · by_cases himg : img.errorFree = true
    · refine ⟨?_, ?_, ?_⟩ <;>
        simp [run_streaming_content_creation, get_user_query, hq, update_store, hT,
          artifactsTruthy, send_ok_of_not_raising, himg]
    · rw [Bool.not_eq_true] at himg
      refine ⟨?_, ?_, ?_⟩ <;>
        simp [run_streaming_content_creation, get_user_query, hq, update_store, hT,
          artifactsTruthy, send_ok_of_not_raising, himg]

theorem run_streaming_err_spec (emsg : String) (au vo : Bool)
    (st : Store) (req : SendTaskRequest) (t : Task) (q : String) (rest : List Part)
    (hT : st.getTask req.params.id = some t)
    (hq : req.params.message.parts = Part.text q :: rest) :
    (run_streaming_content_creation (Behavior.mk (Except.error emsg) false au vo) st req).1
      = Except.ok () ∧
    (run_streaming_content_creation (Behavior.mk (Except.error emsg) false au vo) st req).2.eventsFor
        req.params.id
      = st.eventsFor req.params.id ++
        [TaskEvent.statusUpdate req.params.id
           (TaskStatus.mk TaskState.working (some startingMessage)) false,
         TaskEvent.statusUpdate req.params.id
           (TaskStatus.mk TaskState.working (some progressMessage)) false,
         TaskEvent.statusUpdate req.params.id
           (TaskStatus.mk TaskState.error
             (some (Message.mk "agent" [Part.text ("Error creating content: " ++ emsg)]))) true] ∧
    (run_streaming_content_creation (Behavior.mk (Except.error emsg) false au vo) st req).2.getTask
        req.params.id
      = some (Task.mk t.id
          (TaskStatus.mk TaskState.error
            (some (Message.mk "agent" [Part.text ("Error creating content: " ++ emsg)])))
          t.artifacts) := by
  refine ⟨?_, ?_, ?_⟩ <;>
    simp [run_streaming_content_creation, get_user_query, hq, update_store, hT,
      artifactsTruthy, send_ok_of_not_raising, PyErr.str]

theorem run_streaming_notask_spec (b : Behavior) (st : Store) (req : SendTaskRequest)
    (q : String) (rest : List Part)
    (hT : st.getTask req.params.id = none)
    (hq : req.params.message.parts = Part.text q :: rest) :
    run_streaming_content_creation b st req =
      (Except.error (PyErr.valueError ("Task " ++ req.params.id ++ " not found")), st) := by
  simp [run_streaming_content_creation, get_user_query, hq, update_store, hT]

theorem run_streaming_filepart_spec (b : Behavior) (st : Store) (req : SendTaskRequest)
    (f mt n : String) (rest : List Part)
    (hq : req.params.message.parts = Part.file f mt n :: rest) :
    run_streaming_content_creation b st req =
      (Except.error (PyErr.valueError "Only text parts are supported"), st) := by
  simp [run_streaming_content_creation, get_user_query, hq]

theorem run_streaming_noparts_spec (b : Behavior) (st : Store) (req : SendTaskRequest)
    (hq : req.params.message.parts = []) :
    run_streaming_content_creation b st req = (Except.error PyErr.indexError, st) := by
  simp [run_streaming_content_creation, get_user_query, hq]

theorem on_send_task_err_spec (emsg : String) (au vo : Bool)
    (st : Store) (req : SendTaskRequest) (q : String) (rest : List Part)
    (hv : validate_request req = none)
    (hp : req.params.pushNotification = none)
    (hq : req.params.message.parts = Part.text q :: rest) :
    (on_send_task (Behavior.mk (Except.error emsg) false au vo) st req).1
      = Except.ok (SendTaskResponse.mk req.id none
          (some (RpcError.internalError ("Error invoking agent: " ++ emsg)))) ∧
    ((on_send_task (Behavior.mk (Except.error emsg) false au vo) st req).2.getTask
        req.params.id).map Task.status
      = some (TaskStatus.mk TaskState.failed
          (some (Message.mk "agent" [Part.text ("Error creating content: " ++ emsg)]))) ∧
    ((on_send_task (Behavior.mk (Except.error emsg) false au vo) st req).2.getTask
        req.params.id).bind Task.artifacts
      = (st.getTask req.params.id).bind Task.artifacts ∧
    (on_send_task (Behavior.mk (Except.error emsg) false au vo) st req).2.agentCalls
      = st.agentCalls + 1 := by
  cases hT : st.getTask req.params.id with
  | none =>
    refine ⟨?_, ?_, ?_, ?_⟩ <;>
      simp [on_send_task, hv, hp, upsert_task, update_store, hT, artifactsTruthy,
        send_ok_of_not_raising, get_user_query, hq, PyErr.str]
  | some t =>
    refine ⟨?_, ?_, ?_, ?_⟩ <;>
      simp [on_send_task, hv, hp, upsert_task, update_store, hT, artifactsTruthy,
        send_ok_of_not_raising, get_user_query, hq, PyErr.str]

theorem on_send_task_filepart_spec (a : Except String (Json × Option Imagedata)) (au vo : Bool)
    (st : Store) (req : SendTaskRequest) (f mt n : String) (rest : List Part)
    (hv : validate_request req = none)
    (hp : req.params.pushNotification = none)
    (hq : req.params.message.parts = Part.file f mt n :: rest) :
    (on_send_task (Behavior.mk a false au vo) st req).1
      = Except.error (PyErr.valueError "Only text parts are supported") ∧
    ((on_send_task (Behavior.mk a false au vo) st req).2.getTask req.params.id).map
        (fun t => t.status.state) = some TaskState.working ∧
    ((on_send_task (Behavior.mk a false au vo) st req).2.getTask req.params.id).bind
        Task.artifacts = (st.getTask req.params.id).bind Task.artifacts ∧
    (on_send_task (Behavior.mk a false au vo) st req).2.agentCalls = st.agentCalls := by
  cases hT : st.getTask req.params.id with
  | none =>
    refine ⟨?_, ?_, ?_, ?_⟩ <;>
      simp [on_send_task, hv, hp, upsert_task, update_store, hT, artifactsTruthy,
        send_ok_of_not_raising, get_user_query, hq]
  | some t =>
    refine ⟨?_, ?_, ?_, ?_⟩ <;>
      simp [on_send_task, hv, hp, upsert_task, update_store, hT, artifactsTruthy,
        send_ok_of_not_raising, get_user_query, hq]

theorem on_send_task_sender_irrelevant (a : Except String (Json × Option Imagedata))
    (s1 s2 au vo : Bool) (st : Store) (req : SendTaskRequest)
    (hp : req.params.pushNotification = none) (hc : st.pushConfigs = []) :
    on_send_task (Behavior.mk a s1 au vo) st req
      = on_send_task (Behavior.mk a s2 au vo) st req := by
  rcases hval : validate_request req with _ | e
  case' none =>
    rcases hT : st.getTask req.params.id with _ | t <;>
    rcases hq : req.params.message.parts with _ | ⟨p, rest⟩ <;>
    try rcases p with q | ⟨f, mt, n⟩
  all_goals
    rcases a with emsg | ⟨c, i⟩ <;>
    try rcases i with _ | img
  all_goals try by_cases himg : img.errorFree = true
  all_goals
    simp [on_send_task, hval, hp, upsert_task, update_store, process_agent_response,
      pyArtifacts, artifactsTruthy, get_user_query, send_ok_of_no_config, hc, PyErr.str,
      *]

theorem process_spec (a : Except String (Json × Option Imagedata)) (au vo : Bool)
    (st : Store) (req : SendTaskRequest) (content : Json) (image : Option Imagedata)
    (t : Task) (hT : st.getTask req.params.id = some t) :
    (process_agent_response (Behavior.mk a false au vo) st req content image).1
      = Except.ok (SendTaskResponse.mk req.id
          (some (Task.mk t.id
            (TaskStatus.mk TaskState.completed
              (some (Message.mk "agent" [Part.text (buildSummary content image)])))
            (some (t.artifacts.getD [] ++ pyArtifacts content image)))) none) ∧
    (process_agent_response (Behavior.mk a false au vo) st req content image).2.getTask
        req.params.id
      = some (Task.mk t.id
          (TaskStatus.mk TaskState.completed
            (some (Message.mk "agent" [Part.text (buildSummary content image)])))
          (some (t.artifacts.getD [] ++ pyArtifacts content image))) := by
  rcases image with _ | img
  · refine ⟨?_, ?_⟩ <;>
      simp [process_agent_response, pyArtifacts, update_store, hT, artifactsTruthy,
        send_ok_of_not_raising]
  · by_cases himg : img.errorFree = true
    · refine ⟨?_, ?_⟩ <;>
        simp [process_agent_response, pyArtifacts, update_store, hT, artifactsTruthy,
          send_ok_of_not_raising, himg]
    · rw [Bool.not_eq_true] at himg
      refine ⟨?_, ?_⟩ <;>
        simp [process_agent_response, pyArtifacts, update_store, hT, artifactsTruthy,
          send_ok_of_not_raising, himg]

/-! The claim theorems. -/

/-- C8: `update_store` on a task id absent from the store fails with the
"Task ... not found" error and leaves the store — task map and per-task message
history — unchanged; it never creates a task for that id. -/
theorem C8_update_store_unknown_id (st : Store) (tid : String)
    (status : Option TaskStatus) (arts : Option (List Artifact))
    (h : st.getTask tid = none) :
    update_store st tid status arts
        = (Except.error (PyErr.valueError ("Task " ++ tid ++ " not found")), st) ∧
    (update_store st tid status arts).2.tasks = st.tasks ∧
    (update_store st tid status arts).2.taskMessages = st.taskMessages ∧
    (update_store st tid status arts).2.getTask tid = none := by
  have h1 := update_store_not_found st tid status arts h
  exact ⟨h1, by rw [h1], by rw [h1], by rw [h1]; exact h⟩

/-- Witness for C8 at a concrete empty store. -/
theorem C8_witness :
    update_store Store.empty "t9" none none
      = (Except.error (PyErr.valueError "Task t9 not found"), Store.empty) :=
  (C8_update_store_unknown_id Store.empty "t9" none none rfl).1

/-- C10: `generate_image` never returns an `Imagedata` whose `error` field is
set: every error path constructs `Imagedata` with only `error`, which raises a
pydantic ValidationError (the required `id`, `bytestring`, `mime_type` fields
are missing) instead of returning; it returns normally exactly when an inline
image part is found in the model response. -/
theorem C10_generate_image_never_returns_error (env : GenAIEnv) (prompt : String) :
    (∀ img, generate_image env prompt = Except.ok img → img.error = none) ∧
    (prompt = "" → generate_image env prompt = Except.error PyErr.validationError) ∧
    (prompt ≠ "" → apiKeyMissing env.apiKey = true →
      generate_image env prompt = Except.error PyErr.validationError) ∧
    (∀ emsg, prompt ≠ "" → apiKeyMissing env.apiKey = false →
      env.response = Except.error emsg →
      generate_image env prompt = Except.error PyErr.validationError) ∧
    (∀ parts, prompt ≠ "" → apiKeyMissing env.apiKey = false →
      env.response = Except.ok parts → firstInline parts = none →
      generate_image env prompt = Except.error PyErr.validationError) ∧
    (∀ parts d, prompt ≠ "" → apiKeyMissing env.apiKey = false →
      env.response = Except.ok parts → firstInline parts = some d →
      generate_image env prompt = Except.ok (Imagedata.mk env.imageId d.1 d.2 none)) := by
  by_cases hp : prompt = ""
  · refine ⟨?_, ?_, ?_, ?_, ?_, ?_⟩ <;>
      simp [generate_image, hp, Imagedata.construct]
  · by_cases hk : apiKeyMissing env.apiKey = true
    · refine ⟨?_, ?_, ?_, ?_, ?_, ?_⟩ <;>
        simp [generate_image, hp, hk, Imagedata.construct]
    · rw [Bool.not_eq_true] at hk
      rcases hr : env.response with emsg | parts
      · refine ⟨?_, ?_, ?_, ?_, ?_, ?_⟩ <;>
          simp [generate_image, hp, hk, hr, Imagedata.construct, PyErr.str]
      · rcases hf : firstInline parts with _ | d
        · refine ⟨?_, ?_, ?_, ?_, ?_, ?_⟩ <;>
            simp [generate_image, hp, hk, hr, hf, Imagedata.construct]
          rintro parts1 a b rfl h
          simp [hf] at h
        · refine ⟨?_, ?_, ?_, ?_, ?_, ?_⟩ <;>
            simp [generate_image, hp, hk, hr, hf, Imagedata.construct]
          rintro parts1 a b rfl h
          rw [hf] at h
          simp only [Option.some.injEq] at h
          subst h
          exact ⟨rfl, rfl⟩

/-- Witness for C10: a successful generation returns with `error = none`. -/
theorem C10_witness :
    generate_image envOkA "p" = Except.ok (Imagedata.mk "id1" [5, 6] "image/png" none) ∧
    (Imagedata.mk "id1" [5, 6] "image/png" none).error = none := by
  have h := C10_generate_image_never_returns_error envOkA "p"
  have h6 := h.2.2.2.2.2 [ResponsePart.mk (some ([5, 6], "image/png"))]
    ([5, 6], "image/png") (by decide) rfl rfl rfl
  exact ⟨h6, h.1 _ h6⟩

/-- C1 counterexample: from the empty store, a first `on_send_task` for id
`"t1"` completes the task (a reachable terminal state); a second
`on_send_task` for the same id — here one whose message's first part is a file
part — moves the task back to WORKING, so the claimed terminal-state
preservation fails for the operation `on_send_task`. -/
theorem C1_counterexample :
    (((on_send_task bOkA Store.empty (reqOf "r1" "t1" msgT none)).2.getTask "t1").map
        (fun t => t.status.state) = some TaskState.completed) ∧
    ((((on_send_task bOkA
        (on_send_task bOkA Store.empty (reqOf "r1" "t1" msgT none)).2
        (reqOf "r2" "t1" msgF none)).2.getTask "t1").map (fun t => t.status.state))
      = some TaskState.working) ∧
    some TaskState.working ≠ some TaskState.completed := by decide

/-- C1 (amended): `update_store` applies a provided status unconditionally —
the task's state after the call is exactly the state passed in, with no
terminal-state guard — so a task's state can regress from COMPLETED, FAILED or
ERROR; only calls that pass no status preserve the state, and a second
`on_send_task` for an already-completed task id does move it back to WORKING. -/
theorem C1_amended_update_store_overwrites_state (st : Store) (tid : String) (t : Task)
    (s : TaskStatus) (arts : Option (List Artifact)) (h : st.getTask tid = some t) :
    ((update_store st tid (some s) arts).2.getTask tid).map (fun tk => tk.status.state)
      = some s.state := by
  unfold update_store
  rw [h]
  rcases hm : s.message with _ | m <;> rcases harts : arts with _ | l <;>
    try rcases l with _ | ⟨a, as_⟩
  all_goals simp [hm, artifactsTruthy]

/-- Witness for the amended C1: overwriting a COMPLETED task with WORKING. -/
theorem C1_amended_witness :
    ((update_store (storeWith TaskState.completed) "t1"
        (some (TaskStatus.mk TaskState.working none)) none).2.getTask "t1").map
      (fun tk => tk.status.state) = some TaskState.working :=
  C1_amended_update_store_overwrites_state (storeWith TaskState.completed) "t1"
    (Task.mk "t1" (TaskStatus.mk TaskState.completed none) none)
    (TaskStatus.mk TaskState.working none) none rfl


/-- C3 counterexample: with sender auth configured and url verification
failing, `on_send_task_subscribe` rejects with InvalidParams but the task store
does contain a task for the request's id afterwards (upsert happens before the
push-config check), contradicting the claim's "no task for that id". -/
theorem C3_counterexample :
    (on_send_task_subscribe bNoVerify Store.empty (reqOf "r1" "t1" msgT (some pushCfg))).1
      = SubscribeResult.errorResponse
          (RpcError.invalidParams "Push notification URL is invalid") ∧
    ((on_send_task_subscribe bNoVerify Store.empty
        (reqOf "r1" "t1" msgT (some pushCfg))).2.getTask "t1").isSome = true := by decide

/-- C3 (amended): when url verification fails, `on_send_task` rejects with
InvalidParams before any task creation (the store still has no task for the
id), but `on_send_task_subscribe` upserts the task before the push-config
check, so after its InvalidParams rejection the store contains a task for the
id, left in SUBMITTED. -/
theorem C3_amended_verification_failure (a : Except String (Json × Option Imagedata))
    (sr : Bool) (st : Store) (req : SendTaskRequest) (cfg : PushNotificationConfig)
    (hv : validate_request req = none)
    (hp : req.params.pushNotification = some cfg)
    (hF : st.getTask req.params.id = none) :
    on_send_task (Behavior.mk a sr true false) st req
      = (Except.ok (SendTaskResponse.mk req.id none
          (some (RpcError.invalidParams "Push notification URL is invalid"))), st) ∧
    (on_send_task (Behavior.mk a sr true false) st req).2.getTask req.params.id = none ∧
    (on_send_task_subscribe (Behavior.mk a sr true false) st req).1
      = SubscribeResult.errorResponse
          (RpcError.invalidParams "Push notification URL is invalid") ∧
    ((on_send_task_subscribe (Behavior.mk a sr true false) st req).2.getTask
        req.params.id).map (fun t => t.status.state) = some TaskState.submitted := by
  refine ⟨?_, ?_, ?_, ?_⟩ <;>
    simp [on_send_task, on_send_task_subscribe, hv, hp, set_push_notification_info,
      upsert_task, hF]

/-- Witness for the amended C3. -/
theorem C3_amended_witness :
    on_send_task bNoVerify Store.empty (reqOf "r1" "t1" msgT (some pushCfg))
      = (Except.ok (SendTaskResponse.mk "r1" none
          (some (RpcError.invalidParams "Push notification URL is invalid"))),
         Store.empty) ∧
    ((on_send_task_subscribe bNoVerify Store.empty
        (reqOf "r1" "t1" msgT (some pushCfg))).2.getTask "t1").map
      (fun t => t.status.state) = some TaskState.submitted := by
  have h := C3_amended_verification_failure (Except.ok (contentA, none)) false Store.empty
    (reqOf "r1" "t1" msgT (some pushCfg)) pushCfg rfl rfl rfl
  exact ⟨h.1, h.2.2.2⟩

/-- C2 counterexample: with a verified push config registered for the task, a
sender whose delivery call raises changes the outcome of `on_send_task`: the
run with a raising sender ends with a raised exception and the task left
WORKING, while the run in which every delivery succeeds returns a success
response with the task COMPLETED. -/
theorem C2_counterexample :
    (on_send_task bPushRaise Store.empty (reqOf "r1" "t1" msgT (some pushCfg))).1
      = Except.error PyErr.senderError ∧
    (on_send_task bPushOk Store.empty (reqOf "r1" "t1" msgT (some pushCfg))).1
      ≠ (on_send_task bPushRaise Store.empty (reqOf "r1" "t1" msgT (some pushCfg))).1 ∧
    (((on_send_task bPushRaise Store.empty
        (reqOf "r1" "t1" msgT (some pushCfg))).2.getTask "t1").map
      (fun t => t.status.state)) = some TaskState.working ∧
    (((on_send_task bPushOk Store.empty
        (reqOf "r1" "t1" msgT (some pushCfg))).2.getTask "t1").map
      (fun t => t.status.state)) = some TaskState.completed := by decide

/-- C2 (amended): the decoupling of notification failures from task outcome is
provided by the sender component, not by the task manager: when no push config
is registered and the request attaches none, the sender's behaviour — raising
or not — cannot affect `on_send_task`'s outcome (the send is never attempted);
when a verified config is registered, a sender whose `send_push_notification`
raises does change the outcome, so the claim holds only for senders that
swallow delivery failures internally, as spec 4.3 prescribes. -/
theorem C2_amended_sender_decoupling (a : Except String (Json × Option Imagedata))
    (s1 s2 au vo : Bool) (st : Store) (req : SendTaskRequest)
    (hp : req.params.pushNotification = none) (hc : st.pushConfigs = []) :
    on_send_task (Behavior.mk a s1 au vo) st req
      = on_send_task (Behavior.mk a s2 au vo) st req :=
  on_send_task_sender_irrelevant a s1 s2 au vo st req hp hc

/-- Witness for the amended C2. -/
theorem C2_amended_witness :
    on_send_task (Behavior.mk (Except.ok (contentA, none)) true false false)
        Store.empty (reqOf "r1" "t1" msgT none)
      = on_send_task (Behavior.mk (Except.ok (contentA, none)) false false false)
        Store.empty (reqOf "r1" "t1" msgT none) :=
  C2_amended_sender_decoupling (Except.ok (contentA, none)) true false false false
    Store.empty (reqOf "r1" "t1" msgT none) rfl rfl

/-- C9 counterexample: for a subscribe request whose message's first part is a
file part, the spawned streaming run raises before the handler-protected body,
and the task is left in SUBMITTED — not in WORKING as the claim states. -/
theorem C9_counterexample :
    (((run_streaming_content_creation bOkA
        (on_send_task_subscribe bOkA Store.empty (reqOf "r1" "t1" msgF none)).2
        (reqOf "r1" "t1" msgF none)).2.getTask "t1").map
      (fun t => t.status.state)) = some TaskState.submitted ∧
    some TaskState.submitted ≠ some TaskState.working := by decide

/-- C9 (amended): a non-text first part makes `_get_user_query` raise
ValueError('Only text parts are supported'); on the non-streaming path the
raise happens after the task is created and set WORKING and outside the
handler, so the task stays WORKING, the agent is never invoked and no
InternalError response is returned; on the streaming path the raise happens
before the handler is entered, so the task stays in SUBMITTED (non-terminal,
but not WORKING), the store is untouched by the run and no event — in
particular no final event — is enqueued. -/
theorem C9_amended_nontext_part (a : Except String (Json × Option Imagedata))
    (au vo : Bool) (st : Store) (req : SendTaskRequest) (f mt n : String)
    (rest : List Part)
    (hv : validate_request req = none)
    (hp : req.params.pushNotification = none)
    (hq : req.params.message.parts = Part.file f mt n :: rest) :
    (on_send_task (Behavior.mk a false au vo) st req).1
      = Except.error (PyErr.valueError "Only text parts are supported") ∧
    ((on_send_task (Behavior.mk a false au vo) st req).2.getTask req.params.id).map
      (fun t => t.status.state) = some TaskState.working ∧
    (on_send_task (Behavior.mk a false au vo) st req).2.agentCalls = st.agentCalls ∧
    (st.getTask req.params.id = none →
      (on_send_task_subscribe (Behavior.mk a false au vo) st req).1
        = SubscribeResult.stream ∧
      run_streaming_content_creation (Behavior.mk a false au vo)
          (on_send_task_subscribe (Behavior.mk a false au vo) st req).2 req
        = (Except.error (PyErr.valueError "Only text parts are supported"),
           (on_send_task_subscribe (Behavior.mk a false au vo) st req).2) ∧
      (((on_send_task_subscribe (Behavior.mk a false au vo) st req).2.getTask
          req.params.id).map (fun t => t.status.state)) = some TaskState.submitted ∧
      ((on_send_task_subscribe (Behavior.mk a false au vo) st req).2.eventsFor
          req.params.id) = st.eventsFor req.params.id) := by
  obtain ⟨h1, h2, h3, h4⟩ := on_send_task_filepart_spec a au vo st req f mt n rest hv hp hq
  refine ⟨h1, h2, h4, ?_⟩
  intro hF
  have hsub : (on_send_task_subscribe (Behavior.mk a false au vo) st req)
      = (SubscribeResult.stream,
         st.setTask req.params.id
           (Task.mk req.params.id (TaskStatus.mk TaskState.submitted none) none)) := by
    simp [on_send_task_subscribe, hv, hp, upsert_task, hF]
  rw [hsub]
  refine ⟨rfl, ?_, ?_, ?_⟩
  · exact run_streaming_filepart_spec _ _ _ f mt n rest hq
  · simp
  · simp

/-- Witness for the amended C9. -/
theorem C9_amended_witness :
    (on_send_task bOkA Store.empty (reqOf "r1" "t1" msgF none)).1
      = Except.error (PyErr.valueError "Only text parts are supported") ∧
    (((on_send_task_subscribe bOkA Store.empty (reqOf "r1" "t1" msgF none)).2.getTask
        "t1").map (fun t => t.status.state)) = some TaskState.submitted := by
  have h := C9_amended_nontext_part (Except.ok (contentA, some imageA)) false false
    Store.empty (reqOf "r1" "t1" msgF none) "eA==" "text/plain" "f.txt" [] rfl rfl rfl
  exact ⟨h.1, (h.2.2.2 rfl).2.2.1⟩


/-- C5: when `agent.invoke` raises on the non-streaming path, `on_send_task`
sets the task FAILED with the message "Error creating content: ..." (which
contains the error text), appends no artifacts, invokes the agent exactly once
(no retry), and returns a response whose error is InternalError; on the
streaming path, a raise inside the handler-protected body sets the task ERROR
and enqueues a final StatusUpdateEvent. -/
theorem C5_agent_raise_terminal_failure (emsg : String) (au vo : Bool)
    (st : Store) (req : SendTaskRequest) (q : String) (rest : List Part)
    (hv : validate_request req = none)
    (hp : req.params.pushNotification = none)
    (hq : req.params.message.parts = Part.text q :: rest) :
    (on_send_task (Behavior.mk (Except.error emsg) false au vo) st req).1
      = Except.ok (SendTaskResponse.mk req.id none
          (some (RpcError.internalError ("Error invoking agent: " ++ emsg)))) ∧
    ((on_send_task (Behavior.mk (Except.error emsg) false au vo) st req).2.getTask
        req.params.id).map Task.status
      = some (TaskStatus.mk TaskState.failed
          (some (Message.mk "agent" [Part.text ("Error creating content: " ++ emsg)]))) ∧
    (∃ pre post, "Error creating content: " ++ emsg = pre ++ emsg ++ post) ∧
    ((on_send_task (Behavior.mk (Except.error emsg) false au vo) st req).2.getTask
        req.params.id).bind Task.artifacts
      = (st.getTask req.params.id).bind Task.artifacts ∧
    (on_send_task (Behavior.mk (Except.error emsg) false au vo) st req).2.agentCalls
      = st.agentCalls + 1 ∧
    (∀ t, st.getTask req.params.id = some t →
      ((run_streaming_content_creation (Behavior.mk (Except.error emsg) false au vo)
          st req).2.getTask req.params.id).map (fun tk => tk.status.state)
        = some TaskState.error ∧
      ((run_streaming_content_creation (Behavior.mk (Except.error emsg) false au vo)
          st req).2.eventsFor req.params.id).getLast?
        = some (TaskEvent.statusUpdate req.params.id
            (TaskStatus.mk TaskState.error
              (some (Message.mk "agent"
                [Part.text ("Error creating content: " ++ emsg)]))) true)) := by
  obtain ⟨h1, h2, h3, h4⟩ := on_send_task_err_spec emsg au vo st req q rest hv hp hq
  refine ⟨h1, h2, ⟨"Error creating content: ", "", by simp⟩, h3, h4, ?_⟩
  intro t hT
  obtain ⟨g1, g2, g3⟩ := run_streaming_err_spec emsg au vo st req t q rest hT hq
  refine ⟨?_, ?_⟩
  · rw [g3]; rfl
  · rw [g2]
    simp [List.getLast?_append]

/-- Witness for C5. -/
theorem C5_witness :
    (on_send_task bErrA Store.empty (reqOf "r1" "t1" msgT none)).1
      = Except.ok (SendTaskResponse.mk "r1" none
          (some (RpcError.internalError "Error invoking agent: boom"))) ∧
    (((on_send_task bErrA Store.empty (reqOf "r1" "t1" msgT none)).2.getTask "t1").map
        Task.status)
      = some (TaskStatus.mk TaskState.failed
          (some (Message.mk "agent" [Part.text "Error creating content: boom"]))) := by
  have h := C5_agent_raise_terminal_failure "boom" false false Store.empty
    (reqOf "r1" "t1" msgT none) "hi" [] rfl rfl rfl
  exact ⟨h.1, h.2.1⟩

/-- C6: for a successful agent result reaching `_process_agent_response`, the
task is COMPLETED with the text artifact at index 0 titled "Content Package"
holding the serialized content record; exactly when the image result is
present and error-free, a file artifact at index 1 titled "Generated Image"
with the base64-encoded bytes and declared mime type is added (2 artifacts);
with an image error, the task has exactly the 1 text artifact. -/
theorem C6_completed_artifacts (a : Except String (Json × Option Imagedata))
    (au vo : Bool) (st : Store) (req : SendTaskRequest) (content : Json)
    (image : Option Imagedata) (t : Task)
    (hT : st.getTask req.params.id = some t) (hA : t.artifacts = none) :
    ∃ tk,
      (process_agent_response (Behavior.mk a false au vo) st req content image).1
        = Except.ok (SendTaskResponse.mk req.id (some tk) none) ∧
      (process_agent_response (Behavior.mk a false au vo) st req content image).2.getTask
          req.params.id = some tk ∧
      tk.status.state = TaskState.completed ∧
      (image = none →
        tk.artifacts = some [Artifact.mk [Part.text (Json.dumps content)] 0 "Content Package"]) ∧
      (∀ img, image = some img → img.errorFree = true →
        tk.artifacts = some
          [Artifact.mk [Part.text (Json.dumps content)] 0 "Content Package",
           Artifact.mk [Part.file (b64encode img.bytestring) img.mime_type
             "generated_image.png"] 1 "Generated Image"]) ∧
      (∀ img, image = some img → img.errorFree = false →
        tk.artifacts = some [Artifact.mk [Part.text (Json.dumps content)] 0 "Content Package"]) := by
  obtain ⟨h1, h2⟩ := process_spec a au vo st req content image t hT
  refine ⟨_, h1, h2, rfl, ?_, ?_, ?_⟩
  · rintro rfl
    simp [hA, pyArtifacts, textArtifactOf]
  · rintro img rfl himg
    simp [hA, pyArtifacts, textArtifactOf, imageArtifactOf, himg]
  · rintro img rfl himg
    simp [hA, pyArtifacts, textArtifactOf, imageArtifactOf, himg]

/-- Witness for C6: a concrete successful run with an error-free image yields
exactly the two artifacts. -/
theorem C6_witness :
    ∃ tk,
      (process_agent_response bOkA (storeWith TaskState.working)
          (reqOf "r1" "t1" msgT none) contentA (some imageA)).1
        = Except.ok (SendTaskResponse.mk "r1" (some tk) none) ∧
      tk.artifacts = some
        [Artifact.mk [Part.text (Json.dumps contentA)] 0 "Content Package",
         Artifact.mk [Part.file (b64encode imageA.bytestring) imageA.mime_type
           "generated_image.png"] 1 "Generated Image"] := by
  obtain ⟨tk, h1, _, _, _, h5, _⟩ := C6_completed_artifacts
    (Except.ok (contentA, some imageA)) false false (storeWith TaskState.working)
    (reqOf "r1" "t1" msgT none) contentA (some imageA)
    (Task.mk "t1" (TaskStatus.mk TaskState.working none) none) rfl rfl
  exact ⟨tk, h1, h5 imageA rfl rfl⟩


/-- C7: the summary stored with the COMPLETED status is "Created content
package with posts for {platforms}." where {platforms} comma-joins the
deduplicated, empty-dropped platform names read from the content record's
platform sections, followed by the image-success clause when the image is
error-free or a clause containing the image error string when generation
failed; both the non-streaming and the streaming path store exactly this
summary. -/
theorem C7_summary_contents (content : Json) (image : Option Imagedata) :
    (∃ ps : List String, ps.Nodup ∧
      (∀ p, p ∈ ps ↔ (p ≠ "" ∧ p ∈ rawPlatforms content)) ∧
      buildSummary content image =
        "Created content package with posts for " ++ String.intercalate ", " ps ++ "." ++
        (match image with
         | some img =>
           if img.errorFree then " Generated matching image based on content theme."
           else " Image generation failed: " ++ img.error.getD ""
         | none => "")) ∧
    (∀ img e, image = some img → img.error = some e → e ≠ "" →
      ∃ pre post, buildSummary content image = pre ++ e ++ post) ∧
    (∀ (a : Except String (Json × Option Imagedata)) (au vo : Bool) (st : Store)
        (req : SendTaskRequest) (t : Task), st.getTask req.params.id = some t →
      ((process_agent_response (Behavior.mk a false au vo) st req content image).2.getTask
          req.params.id).map (fun tk => tk.status.message)
        = some (some (Message.mk "agent" [Part.text (buildSummary content image)]))) ∧
    (∀ (au vo : Bool) (st : Store) (req : SendTaskRequest) (t : Task) (q : String)
        (rest : List Part), st.getTask req.params.id = some t →
      req.params.message.parts = Part.text q :: rest →
      ((run_streaming_content_creation (Behavior.mk (Except.ok (content, image)) false au vo)
          st req).2.getTask req.params.id).map (fun tk => tk.status.message)
        = some (some (Message.mk "agent" [Part.text (buildSummary content image)]))) := by
  refine ⟨⟨platformsOf content, ?_, ?_, ?_⟩, ?_, ?_, ?_⟩
  · exact List.Nodup.filter _ (List.nodup_dedup _)
  · intro p
    simp [platformsOf, List.mem_filter, List.mem_dedup, and_comm]
  · rcases image with _ | img
    · simp [buildSummary]
    · by_cases himg : img.errorFree = true
      · simp [buildSummary, himg, String.append_assoc]
      · simp [buildSummary, himg, String.append_assoc]
        rw [← String.append_assoc "." " Image generation failed: "]
        rfl
  · rintro img e rfl he hne
    have himg : img.errorFree = false := by
      simp [Imagedata.errorFree, he, hne]
    refine ⟨"Created content package with posts for " ++
      String.intercalate ", " (platformsOf content) ++ "." ++ " Image generation failed: ",
      "", ?_⟩
    simp [buildSummary, himg, he, String.append_assoc]
  · intro a au vo st req t hT
    rw [(process_spec a au vo st req content image t hT).2]
    rfl
  · intro au vo st req t q rest hT hq
    rw [(run_streaming_ok_spec content image au vo st req t q rest hT hq).2.2]
    rfl

/-- Witness for C7. -/
theorem C7_witness :
    ((process_agent_response bOkA (storeWith TaskState.working)
        (reqOf "r1" "t1" msgT none) contentA (some imageA)).2.getTask "t1").map
      (fun tk => tk.status.message)
      = some (some (Message.mk "agent"
          [Part.text (buildSummary contentA (some imageA))])) :=
  (C7_summary_contents contentA (some imageA)).2.2.1
    (Except.ok (contentA, some imageA)) false false (storeWith TaskState.working)
    (reqOf "r1" "t1" msgT none)
    (Task.mk "t1" (TaskStatus.mk TaskState.working none) none) rfl

/-- C4: for a streaming run with a successful agent invocation, the enqueued
events for the task id are exactly: WORKING (non-final), WORKING (non-final),
the text-artifact event, the image-artifact event exactly when the image
result is present and error-free, and a final COMPLETED status event; and in
every run, whatever the agent outcome, every enqueued final event is the last
event — nothing is enqueued after it — and a non-empty event sequence ends in
a final event. -/
theorem C4_streaming_event_sequence (a : Except String (Json × Option Imagedata))
    (au vo : Bool) (st : Store) (req : SendTaskRequest)
    (hF : st.eventsFor req.params.id = []) :
    (∀ content image t q rest,
      a = Except.ok (content, image) →
      st.getTask req.params.id = some t →
      req.params.message.parts = Part.text q :: rest →
      (run_streaming_content_creation (Behavior.mk a false au vo) st req).2.eventsFor
          req.params.id
        = [TaskEvent.statusUpdate req.params.id
             (TaskStatus.mk TaskState.working (some startingMessage)) false,
           TaskEvent.statusUpdate req.params.id
             (TaskStatus.mk TaskState.working (some progressMessage)) false,
           TaskEvent.artifactUpdate req.params.id (textArtifactOf content)] ++
          (match image with
           | some img => if img.errorFree then
               [TaskEvent.artifactUpdate req.params.id (imageArtifactOf img)] else []
           | none => []) ++
          [TaskEvent.statusUpdate req.params.id
             (TaskStatus.mk TaskState.completed
               (some (Message.mk "agent" [Part.text (buildSummary content image)]))) true]) ∧
    (∀ e, ((run_streaming_content_creation (Behavior.mk a false au vo) st req).2.eventsFor
        req.params.id).getLast? = some e → isFinalEvent e = true) ∧
    (∀ e, e ∈ ((run_streaming_content_creation (Behavior.mk a false au vo) st req).2.eventsFor
        req.params.id).dropLast → isFinalEvent e = false) := by
  have H23 :
      (∀ e, ((run_streaming_content_creation (Behavior.mk a false au vo) st req).2.eventsFor
          req.params.id).getLast? = some e → isFinalEvent e = true) ∧
      (∀ e, e ∈ ((run_streaming_content_creation (Behavior.mk a false au vo) st req).2.eventsFor
          req.params.id).dropLast → isFinalEvent e = false) := by
    rcases hq : req.params.message.parts with _ | ⟨p, rest⟩
    · rw [run_streaming_noparts_spec _ _ _ hq]
      constructor <;> simp [hF]
    · rcases p with q | ⟨f, mt, n⟩
      · rcases hT : st.getTask req.params.id with _ | t
        · rw [run_streaming_notask_spec _ _ _ q rest hT hq]
          constructor <;> simp [hF]
        · rcases a with emsg | ⟨content, image⟩
          · rw [(run_streaming_err_spec emsg au vo st req t q rest hT hq).2.1, hF]
            constructor <;> simp [isFinalEvent]
          · rw [(run_streaming_ok_spec content image au vo st req t q rest hT hq).2.1, hF]
            rcases image with _ | img
            · constructor <;> simp [isFinalEvent]
            · by_cases himg : img.errorFree = true <;>
                · constructor <;> simp [isFinalEvent, himg]
      · rw [run_streaming_filepart_spec _ _ _ f mt n rest hq]
        constructor <;> simp [hF]
  refine ⟨?_, H23.1, H23.2⟩
  rintro content image t q rest rfl hT hq
  rw [(run_streaming_ok_spec content image au vo st req t q rest hT hq).2.1, hF]
  simp

/-- Witness for C4: the concrete event sequence of a successful streaming run
with an error-free image. -/
theorem C4_witness :
    (run_streaming_content_creation bOkA (storeWith TaskState.working)
        (reqOf "r1" "t1" msgT none)).2.eventsFor "t1"
      = [TaskEvent.statusUpdate "t1"
           (TaskStatus.mk TaskState.working (some startingMessage)) false,
         TaskEvent.statusUpdate "t1"
           (TaskStatus.mk TaskState.working (some progressMessage)) false,
         TaskEvent.artifactUpdate "t1" (textArtifactOf contentA),
         TaskEvent.artifactUpdate "t1" (imageArtifactOf imageA),
         TaskEvent.statusUpdate "t1"
           (TaskStatus.mk TaskState.completed
             (some (Message.mk "agent"
               [Part.text (buildSummary contentA (some imageA))]))) true] := by
  have h := (C4_streaming_event_sequence (Except.ok (contentA, some imageA)) false false
    (storeWith TaskState.working) (reqOf "r1" "t1" msgT none) rfl).1 contentA
    (some imageA) (Task.mk "t1" (TaskStatus.mk TaskState.working none) none) "hi" []
    rfl rfl rfl
  simpa [imageA, Imagedata.errorFree] using h

end ContentCreators
